import Mathlib

/-!
Verification of the data-consistency layer of the Music_Project_Back service.

The document store (MongoDB via motor) is modelled as three in-memory
collections of documents; each route handler of the source is embedded as a
pure function from the store state to a result paired with the new state.
A handler returns `(Except.error e, db)` when the Python code raises before
mutating: the paired state is the state at raise time.  `ApiErr.http` models
a raised `HTTPException` (status code and detail string); `ApiErr.py` models
an uncaught Python/driver exception that the framework turns into a generic
500 response (for example pymongo `DuplicateKeyError` or an `AttributeError`
on `None`).
-/

namespace MusicBack

/-- Account document of the `users` collection (`src/models.py` UserInDB plus
the Mongo id).  `favoriteIds` is the stored list of favourite track ids. -/
structure UserDoc where
  id : String
  name : String
  email : String
  password : String
  favoriteIds : List String
  createdAt : Nat
deriving Repr, DecidableEq

/-- Track document of the `musics` collection (`src/models.py` MusicInDB plus
the Mongo id). -/
structure MusicDoc where
  id : String
  title : String
  artist : String
  genre : String
  duration : Int
  coverUrl : String
  audioUrl : String
  uploadedBy : String
  createdAt : Nat
deriving Repr, DecidableEq

/-- Playlist document of the `playlists` collection (`src/models.py`
PlaylistInDB plus the Mongo id). -/
structure PlaylistDoc where
  id : String
  name : String
  description : String
  userId : String
  musicIds : List String
  createdAt : Nat
deriving Repr, DecidableEq

/-- The document-store state: the three collections created by
`init_collections` in `src/utils/database_utils.py`. -/
structure DB where
  users : List UserDoc
  musics : List MusicDoc
  playlists : List PlaylistDoc
deriving Repr, DecidableEq

/-- Errors surfaced by a handler: `http` is a raised FastAPI `HTTPException`
(status code, detail); `py` is an uncaught exception escaping the handler,
which the framework maps to a generic 500 response. -/
inductive ApiErr where
  | http (statusCode : Nat) (detail : String)
  | py (exc : String)
deriving Repr, DecidableEq

/-- Mongo `update_one`: apply `f` to the first document matching `p`. -/
def updateFirst (p : α → Bool) (f : α → α) : List α → List α
  | [] => []
  | x :: xs => if p x then f x :: xs else x :: updateFirst p f xs

/-- Mongo `delete_one`: remove the first document matching `p`. -/
def removeFirst (p : α → Bool) : List α → List α
  | [] => []
  | x :: xs => if p x then xs else x :: removeFirst p xs

theorem find?_updateFirst (p : α → Bool) (f : α → α) (hpf : ∀ x, p (f x) = p x) :
    ∀ l : List α, (updateFirst p f l).find? p = (l.find? p).map f := by
  intro l
  induction l with
  | nil => simp [updateFirst]
  | cons x xs ih =>
    by_cases h : p x = true
    · simp [updateFirst, h, List.find?_cons_of_pos, hpf]
    · rw [updateFirst, if_neg h]
      rw [List.find?_cons_of_neg _ h, List.find?_cons_of_neg _ h, ih]

theorem updateFirst_musics_eq (p : UserDoc → Bool) (f : UserDoc → UserDoc) (db : DB) :
    (DB.mk (updateFirst p f db.users) db.musics db.playlists).musics = db.musics := rfl

theorem find?_removeFirst (p : α → Bool) :
    ∀ l : List α, l.countP p ≤ 1 → (removeFirst p l).find? p = none := by
  intro l
  induction l with
  | nil => intro _; simp [removeFirst]
  | cons x xs ih =>
    intro h
    by_cases hx : p x = true
    · rw [removeFirst, if_pos hx]
      rw [List.countP_cons, hx] at h
      simp only [if_true] at h
      have hzero : xs.countP p = 0 := by omega
      rw [List.find?_eq_none]
      intro a ha
      have := List.countP_eq_zero.mp hzero a ha
      simp [this]
    · rw [removeFirst, if_neg hx]
      rw [List.find?_cons_of_neg _ hx]
      apply ih
      rw [List.countP_cons] at h
      simp [hx] at h
      exact h

/-- Result values of the favourite toggle: the two response bodies of
`toggle_favorite` in `src/routes/favorite_routes.py`. -/
inductive ToggleRes where
  | added
  | removed
deriving Repr, DecidableEq

/-- The `pull` update of `toggle_favorite`: remove every occurrence of
`musicId` from the stored `favoriteIds` of the account `userId`. -/
def pullFav (musicId userId : String) (db : DB) : DB :=
  { db with users := updateFirst (fun u => u.id == userId) (fun u => { u with favoriteIds := u.favoriteIds.filter (fun y => y != musicId) }) db.users }

/-- The `push` update of `toggle_favorite`: append `musicId` to the stored
`favoriteIds` of the account `userId`. -/
def pushFav (musicId userId : String) (db : DB) : DB :=
  { db with users := updateFirst (fun u => u.id == userId) (fun u => { u with favoriteIds := u.favoriteIds ++ [musicId] }) db.users }

/-- `toggle_favorite` from `src/routes/favorite_routes.py` (lines 12-41):
404 when the track does not resolve; then the user document is read (a
missing user makes the Python code call `.get` on `None`, an uncaught
`AttributeError`); membership of `musicId` in the stored `favoriteIds`
decides between a `pull` (remove every occurrence) answering `removed`
and a `push` (append) answering `added`. -/
def toggle_favorite (musicId userId : String) (db : DB) :
    Except ApiErr ToggleRes × DB :=
  match db.musics.find? (fun m => m.id == musicId) with
  | none => (.error (.http 404 "Music not found"), db)
  | some _ =>
    match db.users.find? (fun u => u.id == userId) with
    | none => (.error (.py "AttributeError"), db)
    | some user =>
      if musicId ∈ user.favoriteIds then
        (.ok .removed, pullFav musicId userId db)
      else
        (.ok .added, pushFav musicId userId db)

/-- The stored favourite list of an account (empty when the account is
missing, matching `user.get` with default `[]`). -/
def favoritesOf (db : DB) (userId : String) : List String :=
  ((db.users.find? (fun u => u.id == userId)).map (fun u => u.favoriteIds)).getD []

theorem favoritesOf_mk (us : List UserDoc) (ms : List MusicDoc) (ps : List PlaylistDoc) (userId : String) :
    favoritesOf (DB.mk us ms ps) userId = ((us.find? (fun u => u.id == userId)).map (fun u => u.favoriteIds)).getD [] := rfl

theorem users_find?_pull (l : List UserDoc) (musicId userId : String) (u : UserDoc)
    (hu : l.find? (fun x => x.id == userId) = some u) :
    (updateFirst (fun x => x.id == userId) (fun x => { x with favoriteIds := x.favoriteIds.filter (fun y => y != musicId) }) l).find? (fun x => x.id == userId) = some { u with favoriteIds := u.favoriteIds.filter (fun y => y != musicId) } := by
  rw [find?_updateFirst (fun x : UserDoc => x.id == userId) (fun x : UserDoc => { x with favoriteIds := x.favoriteIds.filter (fun y => y != musicId) }) (by intro x; rfl), hu]
  rfl

theorem users_find?_push (l : List UserDoc) (musicId userId : String) (u : UserDoc)
    (hu : l.find? (fun x => x.id == userId) = some u) :
    (updateFirst (fun x => x.id == userId) (fun x => { x with favoriteIds := x.favoriteIds ++ [musicId] }) l).find? (fun x => x.id == userId) = some { u with favoriteIds := u.favoriteIds ++ [musicId] } := by
  rw [find?_updateFirst (fun x : UserDoc => x.id == userId) (fun x : UserDoc => { x with favoriteIds := x.favoriteIds ++ [musicId] }) (by intro x; rfl), hu]
  rfl

theorem favoritesOf_pullFav (db : DB) (musicId userId : String) (u : UserDoc)
    (hu : db.users.find? (fun x => x.id == userId) = some u) :
    favoritesOf (pullFav musicId userId db) userId = u.favoriteIds.filter (fun y => y != musicId) := by
  unfold pullFav
  rw [favoritesOf_mk, users_find?_pull db.users musicId userId u hu]
  rfl

theorem favoritesOf_pushFav (db : DB) (musicId userId : String) (u : UserDoc)
    (hu : db.users.find? (fun x => x.id == userId) = some u) :
    favoritesOf (pushFav musicId userId db) userId = u.favoriteIds ++ [musicId] := by
  unfold pushFav
  rw [favoritesOf_mk, users_find?_push db.users musicId userId u hu]
  rfl

theorem toggle_favorite_of_mem (db : DB) (musicId userId : String)
    (m : MusicDoc) (u : UserDoc)
    (hm : db.musics.find? (fun x => x.id == musicId) = some m)
    (hu : db.users.find? (fun x => x.id == userId) = some u)
    (hmem : musicId ∈ u.favoriteIds) :
    toggle_favorite musicId userId db = (.ok .removed, pullFav musicId userId db) := by
  unfold toggle_favorite
  rw [hm, hu]
  simp [hmem]

theorem toggle_favorite_of_not_mem (db : DB) (musicId userId : String)
    (m : MusicDoc) (u : UserDoc)
    (hm : db.musics.find? (fun x => x.id == musicId) = some m)
    (hu : db.users.find? (fun x => x.id == userId) = some u)
    (hmem : musicId ∉ u.favoriteIds) :
    toggle_favorite musicId userId db = (.ok .added, pushFav musicId userId db) := by
  unfold toggle_favorite
  rw [hm, hu]
  simp [hmem]

/-- C2: for an existing account and an existing track, one toggle removes the
track from the stored favourite set and answers `removed` when it was a
member, else appends it and answers `added`; toggling twice returns the
stored favourite set (membership-wise) to its initial value. -/
theorem toggle_favorite_spec (db : DB) (musicId userId : String) (m : MusicDoc) (u : UserDoc)
    (hm : db.musics.find? (fun x => x.id == musicId) = some m)
    (hu : db.users.find? (fun x => x.id == userId) = some u) :
    (musicId ∈ u.favoriteIds →
      (toggle_favorite musicId userId db).fst = .ok .removed ∧
      ∀ x, x ∈ favoritesOf (toggle_favorite musicId userId db).snd userId ↔ (x ∈ u.favoriteIds ∧ x ≠ musicId)) ∧
    (musicId ∉ u.favoriteIds →
      (toggle_favorite musicId userId db).fst = .ok .added ∧
      ∀ x, x ∈ favoritesOf (toggle_favorite musicId userId db).snd userId ↔ (x ∈ u.favoriteIds ∨ x = musicId)) ∧
    (∀ x, x ∈ favoritesOf (toggle_favorite musicId userId (toggle_favorite musicId userId db).snd).snd userId ↔ x ∈ u.favoriteIds) := by
  by_cases hmem : musicId ∈ u.favoriteIds
  · have h1 := toggle_favorite_of_mem db musicId userId m u hm hu hmem
    have hm1 : (pullFav musicId userId db).musics.find? (fun x => x.id == musicId) = some m := hm
    have hu1 : (pullFav musicId userId db).users.find? (fun x => x.id == userId) = some { u with favoriteIds := u.favoriteIds.filter (fun y => y != musicId) } :=
      users_find?_pull db.users musicId userId u hu
    have hmem1 : musicId ∉ ({ u with favoriteIds := u.favoriteIds.filter (fun y => y != musicId) } : UserDoc).favoriteIds := by
      simp [List.mem_filter]
    have h2 := toggle_favorite_of_not_mem (pullFav musicId userId db) musicId userId m _ hm1 hu1 hmem1
    refine ⟨fun _ => ⟨by rw [h1], ?_⟩, fun hc => absurd hmem hc, ?_⟩
    · intro x
      rw [h1]
      rw [show ((ToggleRes.removed : ToggleRes) |> Except.ok, pullFav musicId userId db).snd = pullFav musicId userId db from rfl]
      rw [favoritesOf_pullFav db musicId userId u hu]
      simp [List.mem_filter]
    · intro x
      rw [h1]
      rw [show ((ToggleRes.removed : ToggleRes) |> Except.ok, pullFav musicId userId db).snd = pullFav musicId userId db from rfl]
      rw [h2]
      rw [show ((ToggleRes.added : ToggleRes) |> Except.ok, pushFav musicId userId (pullFav musicId userId db)).snd = pushFav musicId userId (pullFav musicId userId db) from rfl]
      rw [favoritesOf_pushFav (pullFav musicId userId db) musicId userId _ hu1]
      simp only [List.mem_append, List.mem_filter, List.mem_singleton, bne_iff_ne]
      constructor
      · rintro (⟨hx, _⟩ | rfl)
        · exact hx
        · exact hmem
      · intro hx
        by_cases hxm : x = musicId
        · right; exact hxm
        · left; exact ⟨hx, hxm⟩
  · have h1 := toggle_favorite_of_not_mem db musicId userId m u hm hu hmem
    have hm1 : (pushFav musicId userId db).musics.find? (fun x => x.id == musicId) = some m := hm
    have hu1 : (pushFav musicId userId db).users.find? (fun x => x.id == userId) = some { u with favoriteIds := u.favoriteIds ++ [musicId] } :=
      users_find?_push db.users musicId userId u hu
    have hmem1 : musicId ∈ ({ u with favoriteIds := u.favoriteIds ++ [musicId] } : UserDoc).favoriteIds := by
      simp
    have h2 := toggle_favorite_of_mem (pushFav musicId userId db) musicId userId m _ hm1 hu1 hmem1
    refine ⟨fun hc => absurd hc hmem, fun _ => ⟨by rw [h1], ?_⟩, ?_⟩
    · intro x
      rw [h1]
      rw [show ((ToggleRes.added : ToggleRes) |> Except.ok, pushFav musicId userId db).snd = pushFav musicId userId db from rfl]
      rw [favoritesOf_pushFav db musicId userId u hu]
      simp
    · intro x
      rw [h1]
      rw [show ((ToggleRes.added : ToggleRes) |> Except.ok, pushFav musicId userId db).snd = pushFav musicId userId db from rfl]
      rw [h2]
      rw [show ((ToggleRes.removed : ToggleRes) |> Except.ok, pullFav musicId userId (pushFav musicId userId db)).snd = pullFav musicId userId (pushFav musicId userId db) from rfl]
      rw [favoritesOf_pullFav (pushFav musicId userId db) musicId userId _ hu1]
      simp only [List.filter_append, List.mem_append, List.mem_filter, bne_iff_ne]
      constructor
      · rintro (⟨hx, _⟩ | hx)
        · exact hx
        · simp at hx
      · intro hx
        left
        refine ⟨hx, ?_⟩
        intro heq
        exact hmem (heq ▸ hx)

/-- Concrete track document used by witnesses. -/
def musicW : MusicDoc := { id := "m1", title := "t", artist := "a", genre := "g", duration := 100, coverUrl := "c", audioUrl := "s", uploadedBy := "u1", createdAt := 0 }

/-- Second concrete track document used by witnesses. -/
def musicW2 : MusicDoc := { musicW with id := "m2" }

/-- Concrete account document used by witnesses; its favourite list holds `m2`. -/
def userW : UserDoc := { id := "u1", name := "n", email := "e@x.y", password := "h", favoriteIds := ["m2"], createdAt := 0 }

/-- Concrete store used by witnesses. -/
def dbW : DB := { users := [userW], musics := [musicW, musicW2], playlists := [] }

/-- Witness for C2 at a concrete store: toggling track `m1` (not yet a
favourite) answers `added`, and toggling twice restores the favourite set. -/
theorem toggle_favorite_spec_witness :
    (toggle_favorite "m1" "u1" dbW).fst = .ok .added ∧
    (∀ x, x ∈ favoritesOf (toggle_favorite "m1" "u1" (toggle_favorite "m1" "u1" dbW).snd).snd "u1" ↔ x ∈ userW.favoriteIds) := by
  have h := toggle_favorite_spec dbW "m1" "u1" musicW userW rfl rfl
  exact ⟨(h.2.1 (by decide)).1, h.2.2⟩

/-- C3: toggling a track id that does not resolve fails with the
track-not-found error (HTTP 404, detail "Music not found") and leaves the
store, in particular the account's stored favourite set, unchanged. -/
theorem toggle_favorite_track_not_found (db : DB) (musicId userId : String)
    (hm : db.musics.find? (fun x => x.id == musicId) = none) :
    toggle_favorite musicId userId db = (.error (.http 404 "Music not found"), db) ∧
    favoritesOf (toggle_favorite musicId userId db).snd userId = favoritesOf db userId := by
  have h : toggle_favorite musicId userId db = (.error (.http 404 "Music not found"), db) := by
    unfold toggle_favorite
    rw [hm]
  exact ⟨h, by rw [h]⟩

/-- Witness for C3 at a concrete store: track id `zzz` does not resolve. -/
theorem toggle_favorite_track_not_found_witness :
    toggle_favorite "zzz" "u1" dbW = (.error (.http 404 "Music not found"), dbW) ∧
    favoritesOf (toggle_favorite "zzz" "u1" dbW).snd "u1" = favoritesOf dbW "u1" := by
  exact toggle_favorite_track_not_found dbW "zzz" "u1" rfl

/-- Wire input of `register` (`src/models.py` UserRegister). -/
structure RegisterInput where
  name : String
  email : String
  password : String
deriving Repr, DecidableEq

/-- The user part of the token response returned by `register`. -/
structure RegisterOk where
  userId : String
  name : String
  email : String
  favoriteIds : List String
deriving Repr, DecidableEq

/-- `insert_one` on the `users` collection under the unique index on `email`
created by `init_collections` (`src/utils/database_utils.py` line 27): an
insert whose email already exists in the collection raises the driver's
`DuplicateKeyError` instead of writing; otherwise the document is appended. -/
def insert_user_unique (db : DB) (doc : UserDoc) : Except ApiErr DB :=
  if db.users.any (fun u => u.email == doc.email) then
    .error (.py "DuplicateKeyError")
  else
    .ok { db with users := db.users ++ [doc] }

/-- `register` from `src/routes/auth_routes.py` (lines 56-98).  The read-check
(`find_one` on the email) and the subsequent `insert_one` are separate store
calls; `readUsers` is the snapshot of the `users` collection seen by the
read-check and `db` the store state at insert time (they coincide in a
sequential run, `readUsers = db.users`).  The handler raises HTTP 400
"Email already registered" when the read-check hits; the insert itself is not
wrapped in any exception handler, so a duplicate-key rejection from the
unique index escapes as an uncaught driver error. -/
def register (readUsers : List UserDoc) (db : DB) (inp : RegisterInput)
    (hashFn : String → String) (newId : String) (now : Nat) :
    Except ApiErr RegisterOk × DB :=
  if readUsers.any (fun u => u.email == inp.email) then
    (.error (.http 400 "Email already registered"), db)
  else
    match insert_user_unique db { id := newId, name := inp.name, email := inp.email, password := hashFn inp.password, favoriteIds := [], createdAt := now } with
    | .error e => (.error e, db)
    | .ok db2 => (.ok { userId := newId, name := inp.name, email := inp.email, favoriteIds := [] }, db2)

/-- Concrete registration input used for C1. -/
def regInpW : RegisterInput := { name := "B", email := "e@x.y", password := "pw" }

/-- Counterexample for C1: a duplicate insert that races past the read-check
(the read snapshot is empty, but at insert time the store already holds the
account `userW` with the same email) is rejected by the unique index and
surfaces as the uncaught driver error `DuplicateKeyError` — a generic error,
not the DuplicateEmail (HTTP 400 "Email already registered") outcome the
claim requires; the store is unchanged and still holds exactly one account
with that email. -/
theorem register_race_counterexample :
    (register [] dbW regInpW (fun s => s) "id2" 1).fst = .error (.py "DuplicateKeyError") ∧
    (register [] dbW regInpW (fun s => s) "id2" 1).fst ≠ .error (.http 400 "Email already registered") ∧
    (register [] dbW regInpW (fun s => s) "id2" 1).snd = dbW ∧
    ((register [] dbW regInpW (fun s => s) "id2" 1).snd.users.countP (fun u => u.email == "e@x.y")) = 1 := by
  refine ⟨rfl, ?_, rfl, rfl⟩
  intro h
  simp [register, insert_user_unique, dbW, regInpW, userW] at h

/-- C1 (amended): in a sequential run the read-check sees the stored
account, so a second registration with an existing email fails with
DuplicateEmail (HTTP 400 "Email already registered") and the store is
unchanged; a duplicate insert that races past the read-check is rejected by
the unique email index and also leaves the store unchanged — the existing
account is never overwritten and the number of accounts with that email is
preserved — but it surfaces as the uncaught driver error `DuplicateKeyError`
(a generic error), not as DuplicateEmail. -/
theorem register_duplicate_email_spec (readUsers : List UserDoc) (db : DB)
    (inp : RegisterInput) (hashFn : String → String) (newId : String) (now : Nat)
    (hdup : db.users.any (fun u => u.email == inp.email) = true) :
    register db.users db inp hashFn newId now = (.error (.http 400 "Email already registered"), db) ∧
    (readUsers.any (fun u => u.email == inp.email) = false →
      register readUsers db inp hashFn newId now = (.error (.py "DuplicateKeyError"), db)) := by
  constructor
  · unfold register
    rw [if_pos hdup]
  · intro hmiss
    unfold register
    rw [hmiss]
    simp only [Bool.false_eq_true, if_false]
    unfold insert_user_unique
    rw [if_pos hdup]

/-- Witness for C1 at a concrete store: both the sequential duplicate
registration and a raced one, against the store holding `userW`. -/
theorem register_duplicate_email_spec_witness :
    register dbW.users dbW regInpW (fun s => s) "id2" 1 = (.error (.http 400 "Email already registered"), dbW) ∧
    register [] dbW regInpW (fun s => s) "id2" 1 = (.error (.py "DuplicateKeyError"), dbW) := by
  have h := register_duplicate_email_spec [] dbW regInpW (fun s => s) "id2" 1 (by decide)
  exact ⟨h.1, h.2 (by decide)⟩

/-- Wire input of `update_playlist` (`src/models.py` PlaylistUpdate): both
fields optional; absent and explicit-null are indistinguishable. -/
structure PlaylistUpdate where
  name : Option String
  description : Option String
deriving Repr, DecidableEq

/-- Response shape of the playlist handlers (`src/models.py`
PlaylistResponse). -/
structure PlaylistResponse where
  id : String
  name : String
  description : String
  userId : String
  musicIds : List String
  createdAt : Nat
deriving Repr, DecidableEq

/-- Build the response body from a stored playlist document. -/
def playlistResponseOf (p : PlaylistDoc) : PlaylistResponse :=
  { id := p.id, name := p.name, description := p.description, userId := p.userId, musicIds := p.musicIds, createdAt := p.createdAt }

/-- The `$set` document of `update_playlist`: only the non-None fields of the
partial are applied. -/
def applySet (upd : PlaylistUpdate) (p : PlaylistDoc) : PlaylistDoc :=
  { p with name := upd.name.getD p.name, description := upd.description.getD p.description }

/-- `update_playlist` from `src/routes/playlist_routes.py` (lines 80-114):
404 when the id does not resolve, 403 when the stored `userId` differs from
the caller; then the non-None fields of the partial are written with one
`$set` (skipped entirely when all fields are None), and the document is
re-read to build the response. -/
def update_playlist (playlistId : String) (upd : PlaylistUpdate) (userId : String) (db : DB) :
    Except ApiErr PlaylistResponse × DB :=
  match db.playlists.find? (fun p => p.id == playlistId) with
  | none => (.error (.http 404 "Playlist not found"), db)
  | some p =>
    if p.userId != userId then
      (.error (.http 403 "Not authorized to update this playlist"), db)
    else
      let db2 := if upd.name.isSome || upd.description.isSome then
          { db with playlists := updateFirst (fun q => q.id == playlistId) (applySet upd) db.playlists }
        else db
      match db2.playlists.find? (fun q => q.id == playlistId) with
      | none => (.error (.py "TypeError"), db2)
      | some q => (.ok (playlistResponseOf q), db2)

/-- `delete_playlist` from `src/routes/playlist_routes.py` (lines 116-135):
404 when the id does not resolve, 403 when the stored `userId` differs from
the caller, otherwise `delete_one`. -/
def delete_playlist (playlistId userId : String) (db : DB) : Except ApiErr Unit × DB :=
  match db.playlists.find? (fun p => p.id == playlistId) with
  | none => (.error (.http 404 "Playlist not found"), db)
  | some p =>
    if p.userId != userId then
      (.error (.http 403 "Not authorized to delete this playlist"), db)
    else
      (.ok (), { db with playlists := removeFirst (fun q => q.id == playlistId) db.playlists })

/-- `delete_music` from `src/routes/music_routes.py` (lines 211-239): 404
when the id does not resolve, 403 when the stored `uploadedBy` differs from
the caller, otherwise the stored blob is removed (file system, out of scope)
and the document deleted with `delete_one`. -/
def delete_music (musicId userId : String) (db : DB) : Except ApiErr Unit × DB :=
  match db.musics.find? (fun m => m.id == musicId) with
  | none => (.error (.http 404 "Music not found"), db)
  | some m =>
    if m.uploadedBy != userId then
      (.error (.http 403 "Not authorized to delete this music"), db)
    else
      (.ok (), { db with musics := removeFirst (fun x => x.id == musicId) db.musics })

/-- The `$push` update of `add_music_to_playlist`: append `musicId` to the
stored `musicIds` of playlist `playlistId`. -/
def pushMusicDb (playlistId musicId : String) (db : DB) : DB :=
  { db with playlists := updateFirst (fun q => q.id == playlistId) (fun q => { q with musicIds := q.musicIds ++ [musicId] }) db.playlists }

/-- The `$pull` update of `remove_music_from_playlist`: remove every
occurrence of `musicId` from the stored `musicIds` of playlist
`playlistId`. -/
def pullMusicDb (playlistId musicId : String) (db : DB) : DB :=
  { db with playlists := updateFirst (fun q => q.id == playlistId) (fun q => { q with musicIds := q.musicIds.filter (fun y => y != musicId) }) db.playlists }

/-- `add_music_to_playlist` from `src/routes/playlist_routes.py` (lines
137-179): 404 when the playlist id does not resolve, 403 when the caller is
not the owner, 404 "Music not found" when the track does not resolve; then
the track id is `$push`-ed only when not already a member of `musicIds`, and
the document is re-read to build the response. -/
def add_music_to_playlist (playlistId musicId userId : String) (db : DB) :
    Except ApiErr PlaylistResponse × DB :=
  match db.playlists.find? (fun p => p.id == playlistId) with
  | none => (.error (.http 404 "Playlist not found"), db)
  | some p =>
    if p.userId != userId then
      (.error (.http 403 "Not authorized to modify this playlist"), db)
    else
      match db.musics.find? (fun m => m.id == musicId) with
      | none => (.error (.http 404 "Music not found"), db)
      | some _ =>
        if musicId ∈ p.musicIds then
          match db.playlists.find? (fun q => q.id == playlistId) with
          | none => (.error (.py "TypeError"), db)
          | some q => (.ok (playlistResponseOf q), db)
        else
          match (pushMusicDb playlistId musicId db).playlists.find? (fun q => q.id == playlistId) with
          | none => (.error (.py "TypeError"), pushMusicDb playlistId musicId db)
          | some q => (.ok (playlistResponseOf q), pushMusicDb playlistId musicId db)

/-- `remove_music_from_playlist` from `src/routes/playlist_routes.py` (lines
181-213): 404 when the playlist id does not resolve, 403 when the caller is
not the owner; then the track id is `$pull`-ed unconditionally (removing
every occurrence, a no-op when absent) and the document re-read. -/
def remove_music_from_playlist (playlistId musicId userId : String) (db : DB) :
    Except ApiErr PlaylistResponse × DB :=
  match db.playlists.find? (fun p => p.id == playlistId) with
  | none => (.error (.http 404 "Playlist not found"), db)
  | some p =>
    if p.userId != userId then
      (.error (.http 403 "Not authorized to modify this playlist"), db)
    else
      match (pullMusicDb playlistId musicId db).playlists.find? (fun q => q.id == playlistId) with
      | none => (.error (.py "TypeError"), pullMusicDb playlistId musicId db)
      | some q => (.ok (playlistResponseOf q), pullMusicDb playlistId musicId db)

theorem playlists_find?_applySet (l : List PlaylistDoc) (playlistId : String) (upd : PlaylistUpdate) (p : PlaylistDoc)
    (hp : l.find? (fun x => x.id == playlistId) = some p) :
    (updateFirst (fun x => x.id == playlistId) (applySet upd) l).find? (fun x => x.id == playlistId) = some (applySet upd p) := by
  rw [find?_updateFirst (fun x : PlaylistDoc => x.id == playlistId) (applySet upd) (by intro x; rfl), hp]
  rfl

theorem playlists_find?_pushMusic (l : List PlaylistDoc) (playlistId musicId : String) (p : PlaylistDoc)
    (hp : l.find? (fun x => x.id == playlistId) = some p) :
    (updateFirst (fun x : PlaylistDoc => x.id == playlistId) (fun q => { q with musicIds := q.musicIds ++ [musicId] }) l).find? (fun x => x.id == playlistId) = some { p with musicIds := p.musicIds ++ [musicId] } := by
  rw [find?_updateFirst (fun x : PlaylistDoc => x.id == playlistId) (fun q : PlaylistDoc => { q with musicIds := q.musicIds ++ [musicId] }) (by intro x; rfl), hp]
  rfl

theorem playlists_find?_pullMusic (l : List PlaylistDoc) (playlistId musicId : String) (p : PlaylistDoc)
    (hp : l.find? (fun x => x.id == playlistId) = some p) :
    (updateFirst (fun x : PlaylistDoc => x.id == playlistId) (fun q => { q with musicIds := q.musicIds.filter (fun y => y != musicId) }) l).find? (fun x => x.id == playlistId) = some { p with musicIds := p.musicIds.filter (fun y => y != musicId) } := by
  rw [find?_updateFirst (fun x : PlaylistDoc => x.id == playlistId) (fun q : PlaylistDoc => { q with musicIds := q.musicIds.filter (fun y => y != musicId) }) (by intro x; rfl), hp]
  rfl

/-- C4: each ownership-checked mutation (playlist update, playlist delete,
track delete) fails with NotFound (HTTP 404) when the target id does not
resolve — for any caller, so the existence check precedes the ownership
check; fails with Forbidden (HTTP 403) leaving the store unchanged when the
stored owner differs from the caller; and succeeds for the owner (for the
deletes, the target no longer resolves afterwards when ids are unique). -/
theorem ownership_checked_mutation_spec (db : DB) (playlistId musicId callerId : String) (upd : PlaylistUpdate) :
    ((db.playlists.find? (fun q => q.id == playlistId) = none →
        delete_playlist playlistId callerId db = (.error (.http 404 "Playlist not found"), db) ∧
        update_playlist playlistId upd callerId db = (.error (.http 404 "Playlist not found"), db)) ∧
     (db.musics.find? (fun x => x.id == musicId) = none →
        delete_music musicId callerId db = (.error (.http 404 "Music not found"), db))) ∧
    ((∀ p, db.playlists.find? (fun q => q.id == playlistId) = some p → p.userId ≠ callerId →
        delete_playlist playlistId callerId db = (.error (.http 403 "Not authorized to delete this playlist"), db) ∧
        update_playlist playlistId upd callerId db = (.error (.http 403 "Not authorized to update this playlist"), db)) ∧
     (∀ m, db.musics.find? (fun x => x.id == musicId) = some m → m.uploadedBy ≠ callerId →
        delete_music musicId callerId db = (.error (.http 403 "Not authorized to delete this music"), db))) ∧
    ((∀ p, db.playlists.find? (fun q => q.id == playlistId) = some p → p.userId = callerId →
        (delete_playlist playlistId callerId db).fst = .ok () ∧
        (update_playlist playlistId upd callerId db).fst = .ok (playlistResponseOf (applySet upd p)) ∧
        (db.playlists.countP (fun q => q.id == playlistId) ≤ 1 →
          (delete_playlist playlistId callerId db).snd.playlists.find? (fun q => q.id == playlistId) = none)) ∧
     (∀ m, db.musics.find? (fun x => x.id == musicId) = some m → m.uploadedBy = callerId →
        (delete_music musicId callerId db).fst = .ok () ∧
        (db.musics.countP (fun x => x.id == musicId) ≤ 1 →
          (delete_music musicId callerId db).snd.musics.find? (fun x => x.id == musicId) = none))) := by
  refine ⟨⟨?_, ?_⟩, ⟨?_, ?_⟩, ⟨?_, ?_⟩⟩
  · intro hnone
    constructor
    · unfold delete_playlist
      rw [hnone]
    · unfold update_playlist
      rw [hnone]
  · intro hnone
    unfold delete_music
    rw [hnone]
  · intro p hp hneq
    have hb : (p.userId != callerId) = true := bne_iff_ne.mpr hneq
    constructor
    · unfold delete_playlist
      rw [hp]
      simp only [hb, if_true]
    · unfold update_playlist
      rw [hp]
      simp only [hb, if_true]
  · intro m hm hneq
    have hb : (m.uploadedBy != callerId) = true := bne_iff_ne.mpr hneq
    unfold delete_music
    rw [hm]
    simp only [hb, if_true]
  · intro p hp howner
    have hb : (p.userId != callerId) = false := by simp [howner]
    refine ⟨?_, ?_, ?_⟩
    · unfold delete_playlist
      rw [hp]
      simp only [hb, Bool.false_eq_true, if_false]
    · unfold update_playlist
      rw [hp]
      simp only [hb, Bool.false_eq_true, if_false]
      by_cases hw : (upd.name.isSome || upd.description.isSome) = true
      · simp only [hw, if_true]
        rw [playlists_find?_applySet db.playlists playlistId upd p hp]
      · simp only [hw, Bool.false_eq_true, if_false]
        rw [hp]
        have happ : applySet upd p = p := by
          simp only [Bool.or_eq_true, not_or] at hw
          obtain ⟨h1, h2⟩ := hw
          have h1n : upd.name = none := Option.not_isSome_iff_eq_none.mp h1
          have h2n : upd.description = none := Option.not_isSome_iff_eq_none.mp h2
          unfold applySet
          rw [h1n, h2n]
          rfl
        rw [happ]
    · intro hcount
      unfold delete_playlist
      rw [hp]
      simp only [hb, Bool.false_eq_true, if_false]
      exact find?_removeFirst _ db.playlists hcount
  · intro m hm howner
    have hb : (m.uploadedBy != callerId) = false := by simp [howner]
    refine ⟨?_, ?_⟩
    · unfold delete_music
      rw [hm]
      simp only [hb, Bool.false_eq_true, if_false]
    · intro hcount
      unfold delete_music
      rw [hm]
      simp only [hb, Bool.false_eq_true, if_false]
      exact find?_removeFirst _ db.musics hcount

theorem pullMusicDb_find? (db : DB) (playlistId musicId : String) (p : PlaylistDoc)
    (hp : db.playlists.find? (fun q => q.id == playlistId) = some p) :
    (pullMusicDb playlistId musicId db).playlists.find? (fun q => q.id == playlistId) = some { p with musicIds := p.musicIds.filter (fun y => y != musicId) } :=
  playlists_find?_pullMusic db.playlists playlistId musicId p hp

theorem pushMusicDb_find? (db : DB) (playlistId musicId : String) (p : PlaylistDoc)
    (hp : db.playlists.find? (fun q => q.id == playlistId) = some p) :
    (pushMusicDb playlistId musicId db).playlists.find? (fun q => q.id == playlistId) = some { p with musicIds := p.musicIds ++ [musicId] } :=
  playlists_find?_pushMusic db.playlists playlistId musicId p hp

/-- Concrete playlist document used by witnesses: owned by `u1`, holding
track `m2`. -/
def playW : PlaylistDoc := { id := "p1", name := "pl", description := "d", userId := "u1", musicIds := ["m2"], createdAt := 0 }

/-- Concrete store with a playlist, used by witnesses. -/
def dbP : DB := { users := [userW], musics := [musicW, musicW2], playlists := [playW] }

/-- Witness for C4 at a concrete store: a non-owner delete is Forbidden with
the store unchanged, the owner's delete succeeds, and an unresolved id gives
NotFound even for a caller who owns nothing. -/
theorem ownership_checked_mutation_spec_witness :
    delete_playlist "p1" "u2" dbP = (.error (.http 403 "Not authorized to delete this playlist"), dbP) ∧
    (delete_playlist "p1" "u1" dbP).fst = .ok () ∧
    delete_playlist "zz" "u2" dbP = (.error (.http 404 "Playlist not found"), dbP) ∧
    delete_music "m1" "u2" dbP = (.error (.http 403 "Not authorized to delete this music"), dbP) ∧
    (delete_music "m1" "u1" dbP).fst = .ok () := by
  refine ⟨?_, ?_, ?_, ?_, ?_⟩
  · exact ((ownership_checked_mutation_spec dbP "p1" "m1" "u2" { name := none, description := none }).2.1.1 playW rfl (by decide)).1
  · exact ((ownership_checked_mutation_spec dbP "p1" "m1" "u1" { name := none, description := none }).2.2.1 playW rfl rfl).1
  · exact ((ownership_checked_mutation_spec dbP "zz" "m1" "u2" { name := none, description := none }).1.1 rfl).1
  · exact (ownership_checked_mutation_spec dbP "p1" "m1" "u2" { name := none, description := none }).2.1.2 musicW rfl (by decide)
  · exact ((ownership_checked_mutation_spec dbP "p1" "m1" "u1" { name := none, description := none }).2.2.2 musicW rfl rfl).1

/-- C5: for a playlist owned by the caller: re-adding a present track id is a
successful no-op (store unchanged, not an error, no duplicate); adding a
track id that does not resolve fails with TrackNotFound (HTTP 404 "Music not
found") leaving the store unchanged; removing a track id succeeds and leaves
the stored sequence equal to the original with every occurrence of that id
removed — the original itself when the id was absent. -/
theorem playlist_membership_spec (db : DB) (playlistId musicId callerId : String) (p : PlaylistDoc)
    (hp : db.playlists.find? (fun q => q.id == playlistId) = some p)
    (howner : p.userId = callerId) :
    ((db.musics.find? (fun x => x.id == musicId)).isSome = true → musicId ∈ p.musicIds →
      add_music_to_playlist playlistId musicId callerId db = (.ok (playlistResponseOf p), db)) ∧
    (db.musics.find? (fun x => x.id == musicId) = none →
      add_music_to_playlist playlistId musicId callerId db = (.error (.http 404 "Music not found"), db)) ∧
    (remove_music_from_playlist playlistId musicId callerId db).fst = .ok (playlistResponseOf { p with musicIds := p.musicIds.filter (fun y => y != musicId) }) ∧
    (remove_music_from_playlist playlistId musicId callerId db).snd.playlists.find? (fun q => q.id == playlistId) = some { p with musicIds := p.musicIds.filter (fun y => y != musicId) } ∧
    (musicId ∉ p.musicIds →
      (remove_music_from_playlist playlistId musicId callerId db).snd.playlists.find? (fun q => q.id == playlistId) = some p) := by
  have hb : (p.userId != callerId) = false := by simp [howner]
  refine ⟨?_, ?_, ?_, ?_, ?_⟩
  · intro hmus hmem
    obtain ⟨m, hm⟩ := Option.isSome_iff_exists.mp hmus
    unfold add_music_to_playlist
    rw [hp]
    simp only [hb, Bool.false_eq_true, if_false]
    rw [hm]
    simp only [hmem, if_true, hp]
  · intro hmus
    unfold add_music_to_playlist
    rw [hp]
    simp only [hb, Bool.false_eq_true, if_false]
    rw [hmus]
  · unfold remove_music_from_playlist
    rw [hp]
    simp only [hb, Bool.false_eq_true, if_false]
    rw [pullMusicDb_find? db playlistId musicId p hp]
  · unfold remove_music_from_playlist
    rw [hp]
    simp only [hb, Bool.false_eq_true, if_false]
    rw [pullMusicDb_find? db playlistId musicId p hp]
    exact pullMusicDb_find? db playlistId musicId p hp
  · intro habs
    have hfilter : p.musicIds.filter (fun y => y != musicId) = p.musicIds := by
      apply List.filter_eq_self.mpr
      intro a ha
      exact bne_iff_ne.mpr (fun h => habs (h ▸ ha))
    unfold remove_music_from_playlist
    rw [hp]
    simp only [hb, Bool.false_eq_true, if_false]
    rw [pullMusicDb_find? db playlistId musicId p hp]
    have h2 := pullMusicDb_find? db playlistId musicId p hp
    rw [hfilter] at h2
    exact h2

/-- Witness for C5 at a concrete store: re-adding the present track `m2` is a
no-op, adding the unresolved id `zzz` fails with 404, and removing the absent
id `zzz` leaves the stored sequence unchanged. -/
theorem playlist_membership_spec_witness :
    add_music_to_playlist "p1" "m2" "u1" dbP = (.ok (playlistResponseOf playW), dbP) ∧
    add_music_to_playlist "p1" "zzz" "u1" dbP = (.error (.http 404 "Music not found"), dbP) ∧
    (remove_music_from_playlist "p1" "zzz" "u1" dbP).snd.playlists.find? (fun q => q.id == "p1") = some playW := by
  have h := playlist_membership_spec dbP "p1" "m2" "u1" playW rfl rfl
  have h2 := playlist_membership_spec dbP "p1" "zzz" "u1" playW rfl rfl
  exact ⟨h.1 (by decide) (by decide), h2.2.1 (by decide), h2.2.2.2.2 (by decide)⟩

/-- C10: playlist update applies exactly the non-None fields of the partial:
fields whose partial value is None keep their stored value, `userId`,
`musicIds` and `createdAt` are never changed by update, and an all-None
partial performs no store write (the store is returned unchanged) and
answers with the stored playlist unchanged. -/
theorem update_playlist_partial_spec (db : DB) (playlistId callerId : String) (upd : PlaylistUpdate) (p : PlaylistDoc)
    (hp : db.playlists.find? (fun q => q.id == playlistId) = some p)
    (howner : p.userId = callerId) :
    (update_playlist playlistId upd callerId db).fst = .ok (playlistResponseOf (applySet upd p)) ∧
    (update_playlist playlistId upd callerId db).snd.playlists.find? (fun q => q.id == playlistId) = some (applySet upd p) ∧
    (applySet upd p).userId = p.userId ∧
    (applySet upd p).musicIds = p.musicIds ∧
    (applySet upd p).createdAt = p.createdAt ∧
    (upd.name = none → (applySet upd p).name = p.name) ∧
    (upd.description = none → (applySet upd p).description = p.description) ∧
    (upd.name = none → upd.description = none →
      update_playlist playlistId upd callerId db = (.ok (playlistResponseOf p), db)) := by
  have hb : (p.userId != callerId) = false := by simp [howner]
  refine ⟨?_, ?_, rfl, rfl, rfl, ?_, ?_, ?_⟩
  · unfold update_playlist
    rw [hp]
    simp only [hb, Bool.false_eq_true, if_false]
    by_cases hw : (upd.name.isSome || upd.description.isSome) = true
    · simp only [hw, if_true]
      rw [playlists_find?_applySet db.playlists playlistId upd p hp]
    · simp only [hw, Bool.false_eq_true, if_false]
      rw [hp]
      have happ : applySet upd p = p := by
        simp only [Bool.or_eq_true, not_or] at hw
        obtain ⟨h1, h2⟩ := hw
        have h1n : upd.name = none := Option.not_isSome_iff_eq_none.mp h1
        have h2n : upd.description = none := Option.not_isSome_iff_eq_none.mp h2
        unfold applySet
        rw [h1n, h2n]
        rfl
      rw [happ]
  · unfold update_playlist
    rw [hp]
    simp only [hb, Bool.false_eq_true, if_false]
    by_cases hw : (upd.name.isSome || upd.description.isSome) = true
    · simp only [hw, if_true]
      rw [playlists_find?_applySet db.playlists playlistId upd p hp]
      exact playlists_find?_applySet db.playlists playlistId upd p hp
    · simp only [hw, Bool.false_eq_true, if_false]
      rw [hp]
      have happ : applySet upd p = p := by
        simp only [Bool.or_eq_true, not_or] at hw
        obtain ⟨h1, h2⟩ := hw
        have h1n : upd.name = none := Option.not_isSome_iff_eq_none.mp h1
        have h2n : upd.description = none := Option.not_isSome_iff_eq_none.mp h2
        unfold applySet
        rw [h1n, h2n]
        rfl
      rw [happ]
      exact hp
  · intro h1n
    unfold applySet
    rw [h1n]
    rfl
  · intro h2n
    unfold applySet
    rw [h2n]
    rfl
  · intro h1n h2n
    unfold update_playlist
    rw [hp]
    simp only [hb, Bool.false_eq_true, if_false]
    have hw : (upd.name.isSome || upd.description.isSome) = false := by
      rw [h1n, h2n]
      rfl
    simp only [hw, Bool.false_eq_true, if_false]
    rw [hp]

/-- Witness for C10 at a concrete store: a name-only partial updates only the
name, and the all-None partial returns the playlist and store unchanged. -/
theorem update_playlist_partial_spec_witness :
    (update_playlist "p1" { name := some "nn", description := none } "u1" dbP).fst = .ok (playlistResponseOf (applySet { name := some "nn", description := none } playW)) ∧
    update_playlist "p1" { name := none, description := none } "u1" dbP = (.ok (playlistResponseOf playW), dbP) := by
  have h := update_playlist_partial_spec dbP "p1" "u1" { name := some "nn", description := none } playW rfl rfl
  have h0 := update_playlist_partial_spec dbP "p1" "u1" { name := none, description := none } playW rfl rfl
  exact ⟨h.1, h0.2.2.2.2.2.2.2 rfl rfl⟩

/-- A connection candidate of `init_database` in `src/server.py` (lines
44-68): the Atlas and Local configurations, each with its label and bounded
timeouts.  `pingOk` tells whether opening the (lazy) client and issuing the
`ping` liveness probe succeeds for this candidate in the run being
modelled. -/
structure Candidate where
  label : String
  pingOk : Bool
deriving Repr, DecidableEq

/-- Outcome of connection acquisition: the label of the connected candidate,
or the degraded no-storage mode (`init_database` returns `False`). -/
inductive AcquireOutcome where
  | connected (label : String)
  | allFailed
deriving Repr, DecidableEq

/-- Result of `init_database`: the outcome plus the labels of the candidates
whose clients were explicitly closed (`client.close()` in the `except`
branch, `src/server.py` lines 88-94). -/
structure AcquireResult where
  outcome : AcquireOutcome
  closedLabels : List String
deriving Repr, DecidableEq

/-- `init_database` from `src/server.py` (lines 31-97): the candidates are
tried strictly in order; the first whose ping succeeds becomes the active
handle and the function returns success immediately; a failing candidate's
client is closed and the loop continues; when every candidate fails the
function returns `False` (degraded no-storage mode) instead of raising. -/
def init_database : List Candidate → AcquireResult
  | [] => { outcome := .allFailed, closedLabels := [] }
  | c :: rest =>
    if c.pingOk then { outcome := .connected c.label, closedLabels := [] }
    else
      { outcome := (init_database rest).outcome, closedLabels := c.label :: (init_database rest).closedLabels }

/-- C6: acquisition tries the candidates strictly in order — the first whose
connect-and-ping succeeds becomes the active handle and its label is the
whole success outcome, so earlier candidates' failures are not surfaced to
the caller; every candidate failing before the winner has its connection
explicitly closed; and when every candidate fails the function returns the
degraded no-storage outcome instead of raising (it is total and yields
`allFailed`). -/
theorem init_database_spec (cands : List Candidate) :
    (∀ c, cands.find? (fun x => x.pingOk) = some c →
      init_database cands = { outcome := .connected c.label, closedLabels := (cands.takeWhile (fun x => !x.pingOk)).map (fun x => x.label) }) ∧
    (cands.find? (fun x => x.pingOk) = none →
      init_database cands = { outcome := .allFailed, closedLabels := cands.map (fun x => x.label) }) := by
  induction cands with
  | nil =>
    constructor
    · intro c hc
      simp at hc
    · intro _
      rfl
  | cons c rest ih =>
    constructor
    · intro d hd
      by_cases hping : c.pingOk = true
      · rw [List.find?_cons_of_pos _ hping] at hd
        cases hd
        unfold init_database
        rw [if_pos hping]
        rw [List.takeWhile_cons_of_neg (by simp [hping])]
        rfl
      · rw [List.find?_cons_of_neg _ hping] at hd
        unfold init_database
        rw [if_neg hping]
        rw [ih.1 d hd]
        rw [List.takeWhile_cons_of_pos (by simp [hping])]
        rfl
    · intro hnone
      by_cases hping : c.pingOk = true
      · rw [List.find?_cons_of_pos _ hping] at hnone
        cases hnone
      · rw [List.find?_cons_of_neg _ hping] at hnone
        unfold init_database
        rw [if_neg hping]
        rw [ih.2 hnone]
        rfl

/-- Witness for C6 at the spec's own example, candidates
`[bad-endpoint, good-endpoint]`: the good endpoint's handle is returned, the
bad endpoint appears only in the closed list, and the all-failing list
degrades instead of raising. -/
theorem init_database_spec_witness :
    init_database [{ label := "Atlas", pingOk := false }, { label := "Local", pingOk := true }] = { outcome := .connected "Local", closedLabels := ["Atlas"] } ∧
    init_database [{ label := "Atlas", pingOk := false }, { label := "Local", pingOk := false }] = { outcome := .allFailed, closedLabels := ["Atlas", "Local"] } := by
  constructor
  · exact (init_database_spec [{ label := "Atlas", pingOk := false }, { label := "Local", pingOk := true }]).1 { label := "Local", pingOk := true } rfl
  · exact (init_database_spec [{ label := "Atlas", pingOk := false }, { label := "Local", pingOk := false }]).2 rfl

/-- A value of the JSON-like dictionaries returned by the health endpoints. -/
inductive HealthVal where
  | s (v : String)
  | n (v : Nat)
  | counts (users musics playlists : Nat)
deriving Repr, DecidableEq

/-- `check_database_health` from `src/utils/database_utils.py` (lines 61-84).
The probe is the outcome of the three `count_documents` calls: either the
three per-collection counts, or the message of the first exception.  The
whole body is wrapped in `try/except Exception`, so the function is total:
a failing probe yields the dictionary with `status` `error` and the detail,
a succeeding probe yields `status` `healthy`, the per-collection counts and
their sum — and nothing else. -/
def check_database_health (probe : Except String (Nat × Nat × Nat)) : List (String × HealthVal) :=
  match probe with
  | .ok (u, m, p) =>
      [("status", .s "healthy"), ("collections", .counts u m p), ("total_documents", .n (u + m + p))]
  | .error msg => [("status", .s "error"), ("error", .s msg)]

/-- The response body of `health_check` from `src/server.py` (lines 257-287):
the api field plus the nested database dictionary (timestamp omitted). -/
structure HealthResponse where
  api : String
  database : List (String × HealthVal)
deriving Repr, DecidableEq

/-- `health_check` from `src/server.py` (lines 257-287): when the client or
database handle was never initialized, a disconnected database status; else
the `check_database_health` snapshot; the surrounding `try/except` turns any
escaping exception into the error variant, so the endpoint is total. -/
def health_check (clientInitialized : Bool) (probe : Except String (Nat × Nat × Nat)) : HealthResponse :=
  if clientInitialized then
    { api := "healthy", database := check_database_health probe }
  else
    { api := "healthy", database := [("status", .s "disconnected"), ("message", .s "Database client not initialized")] }

/-- Counterexample for C7: on a successful probe the snapshot's keys are
exactly `status`, `collections` and `total_documents` — it carries no server
version, contrary to the claim that the healthy snapshot returns the server
version together with the per-collection counts. -/
theorem health_snapshot_no_version :
    (check_database_health (.ok (1, 2, 3))).lookup "status" = some (.s "healthy") ∧
    (check_database_health (.ok (1, 2, 3))).map (fun kv => kv.fst) = ["status", "collections", "total_documents"] ∧
    (check_database_health (.ok (1, 2, 3))).lookup "version" = none ∧
    (health_check true (.ok (1, 2, 3))).database.lookup "version" = none := by
  refine ⟨rfl, rfl, rfl, rfl⟩

/-- C7 (amended): healthSnapshot is total — it never throws past its
boundary; every probe failure converts to the error variant carrying the
detail; an uninitialized client yields the disconnected variant, never the
healthy one; and a successful probe yields the healthy status with the
per-collection document counts and their total (but no server version). -/
theorem health_snapshot_spec (clientInitialized : Bool) (probe : Except String (Nat × Nat × Nat)) :
    (∀ msg, probe = .error msg →
      check_database_health probe = [("status", .s "error"), ("error", .s msg)]) ∧
    (∀ u m p, probe = .ok (u, m, p) →
      check_database_health probe = [("status", .s "healthy"), ("collections", .counts u m p), ("total_documents", .n (u + m + p))]) ∧
    (clientInitialized = false →
      (health_check clientInitialized probe).database = [("status", .s "disconnected"), ("message", .s "Database client not initialized")] ∧
      (health_check clientInitialized probe).database.lookup "status" ≠ some (.s "healthy")) ∧
    (clientInitialized = true →
      (health_check clientInitialized probe).database = check_database_health probe) := by
  refine ⟨?_, ?_, ?_, ?_⟩
  · intro msg hmsg
    rw [hmsg]
    rfl
  · intro u m p hok
    rw [hok]
    rfl
  · intro hfalse
    rw [hfalse]
    refine ⟨rfl, ?_⟩
    intro h
    have h2 : HealthVal.s "disconnected" = HealthVal.s "healthy" := Option.some.inj h
    have h3 : "disconnected" = "healthy" := by injection h2
    exact absurd h3 (by decide)
  · intro htrue
    rw [htrue]
    rfl

/-- Witness for C7 at concrete probes: a failing probe converts to the error
variant and an uninitialized client reports disconnected. -/
theorem health_snapshot_spec_witness :
    check_database_health (.error "boom") = [("status", .s "error"), ("error", .s "boom")] ∧
    (health_check false (.error "boom")).database = [("status", .s "disconnected"), ("message", .s "Database client not initialized")] := by
  have h := health_snapshot_spec false (.error "boom")
  exact ⟨h.1 "boom" rfl, (h.2.2.1 rfl).1⟩

/-- Python `str.startswith`, structurally on the character lists so that it
computes. -/
def charsStartWith : List Char → List Char → Bool
  | _, [] => true
  | [], _ :: _ => false
  | c :: cs, d :: ds => c == d && charsStartWith cs ds

/-- `s.startswith(pre)` on strings. -/
def strStartsWith (s pre : String) : Bool :=
  charsStartWith s.data pre.data

/-- Form input of `upload_music` in `src/routes/music_routes.py` (lines
43-52): the metadata fields plus the content type of the uploaded audio file
(`""` when the upload carries none); file bytes and the optional cover are
opaque to the stored document and omitted. -/
structure MusicUploadInput where
  title : String
  artist : String
  genre : String
  duration : Int
  audioContentType : String
deriving Repr, DecidableEq

/-- The default cover locator of `upload_music` (line 76). -/
def defaultCoverUrl : String := "https://images.unsplash.com/photo-1470225620780-dba8ba36b745?w=400&h=400&fit=crop"

/-- The music document `upload_music` inserts (lines 100-109): every field is
copied from the form input as received; `newId` is the generated id, the
audio locator is derived from it. -/
def mkMusicDoc (inp : MusicUploadInput) (userId newId : String) (now : Nat) : MusicDoc :=
  { id := newId, title := inp.title, artist := inp.artist, genre := inp.genre, duration := inp.duration, coverUrl := defaultCoverUrl, audioUrl := "/api/music/stream/" ++ newId, uploadedBy := userId, createdAt := now }

/-- `upload_music` from `src/routes/music_routes.py` (lines 43-126): the only
validation is that the audio content type starts with `audio/` (HTTP 400
otherwise); the music document is then inserted with the duration exactly as
received — no check on its sign or value is performed anywhere (neither here
nor in `src/models.py` MusicCreate, whose `duration: int` is unconstrained).
File saving is modelled as succeeding. -/
def upload_music (inp : MusicUploadInput) (userId : String) (db : DB) (newId : String) (now : Nat) : Except ApiErr MusicDoc × DB :=
  if !(strStartsWith inp.audioContentType "audio/") then
    (.error (.http 400 "File must be an audio file"), db)
  else
    (.ok (mkMusicDoc inp userId newId now), { db with musics := db.musics ++ [mkMusicDoc inp userId newId now] })

/-- Concrete upload input with a negative duration used for C8. -/
def badUploadW : MusicUploadInput := { title := "t", artist := "a", genre := "g", duration := -5, audioContentType := "audio/mpeg" }

/-- Counterexample for C8: an upload with duration `-5` is not rejected — it
succeeds, and the stored track document has duration `-5 < 0`, contradicting
both the claimed ValidationError and the claimed invariant that every stored
track's duration is ≥ 0. -/
theorem upload_negative_duration_accepted :
    (upload_music badUploadW "u1" dbW "m9" 7).fst = .ok (mkMusicDoc badUploadW "u1" "m9" 7) ∧
    (mkMusicDoc badUploadW "u1" "m9" 7).duration < 0 ∧
    (upload_music badUploadW "u1" dbW "m9" 7).snd.musics.find? (fun x => x.id == "m9") = some (mkMusicDoc badUploadW "u1" "m9" 7) := by
  refine ⟨rfl, by decide, rfl⟩

/-- C8 (amended): track creation performs no duration validation — for any
input whose audio content type starts with `audio/`, whatever the duration
(negative included), the upload succeeds and the appended stored document
carries exactly the input duration; the only rejection is the content-type
check, which does not involve the duration. -/
theorem upload_music_no_duration_validation (inp : MusicUploadInput) (userId : String) (db : DB) (newId : String) (now : Nat)
    (hct : strStartsWith inp.audioContentType "audio/" = true) :
    upload_music inp userId db newId now = (.ok (mkMusicDoc inp userId newId now), { db with musics := db.musics ++ [mkMusicDoc inp userId newId now] }) ∧
    (mkMusicDoc inp userId newId now).duration = inp.duration ∧
    (upload_music inp userId db newId now).snd.musics.getLast? = some (mkMusicDoc inp userId newId now) := by
  have hb : (!(strStartsWith inp.audioContentType "audio/")) = false := by rw [hct]; rfl
  have h : upload_music inp userId db newId now = (.ok (mkMusicDoc inp userId newId now), { db with musics := db.musics ++ [mkMusicDoc inp userId newId now] }) := by
    unfold upload_music
    rw [hb]
    rfl
  refine ⟨h, rfl, ?_⟩
  rw [h]
  exact List.getLast?_concat _
/-- Witness for C8's amended theorem at a concrete input with negative
duration. -/
theorem upload_music_no_duration_validation_witness :
    (upload_music badUploadW "u1" dbW "m9" 7).snd.musics.getLast? = some (mkMusicDoc badUploadW "u1" "m9" 7) ∧
    (mkMusicDoc badUploadW "u1" "m9" 7).duration = badUploadW.duration := by
  have h := upload_music_no_duration_validation badUploadW "u1" dbW "m9" 7 rfl
  exact ⟨h.2.2, h.2.1⟩

/-- The user payload of a successful login (`src/models.py` UserResponse,
token omitted as an opaque capability). -/
structure LoginOk where
  userId : String
  name : String
  email : String
  favoriteIds : List String
deriving Repr, DecidableEq

/-- `login` from `src/routes/auth_routes.py` (lines 100-122): the account is
looked up by email; a missing account and a failing password verification
raise the same HTTP 401 "Invalid credentials"; password verification is the
opaque external capability `verifyFn` (credential hashing is outside the
modelled core). -/
def login (email password : String) (verifyFn : String → String → Bool) (db : DB) : Except ApiErr LoginOk × DB :=
  match db.users.find? (fun u => u.email == email) with
  | none => (.error (.http 401 "Invalid credentials"), db)
  | some u =>
    if !(verifyFn password u.password) then
      (.error (.http 401 "Invalid credentials"), db)
    else
      (.ok { userId := u.id, name := u.name, email := u.email, favoriteIds := u.favoriteIds }, db)

/-- C9: login failure does not reveal account existence — a login with an
unregistered email and a login with a registered email but a wrong password
(verification fails) produce the identical error: HTTP 401 with detail
"Invalid credentials". -/
theorem login_uniform_error (db1 db2 : DB) (e1 e2 p1 p2 : String)
    (verifyFn : String → String → Bool) (u : UserDoc)
    (h1 : db1.users.find? (fun x => x.email == e1) = none)
    (h2 : db2.users.find? (fun x => x.email == e2) = some u)
    (hv : verifyFn p2 u.password = false) :
    (login e1 p1 verifyFn db1).fst = .error (.http 401 "Invalid credentials") ∧
    (login e2 p2 verifyFn db2).fst = .error (.http 401 "Invalid credentials") ∧
    (login e1 p1 verifyFn db1).fst = (login e2 p2 verifyFn db2).fst := by
  have ha : (login e1 p1 verifyFn db1).fst = .error (.http 401 "Invalid credentials") := by
    unfold login
    rw [h1]
  have hb : (login e2 p2 verifyFn db2).fst = .error (.http 401 "Invalid credentials") := by
    unfold login
    rw [h2]
    simp only [hv, Bool.not_false, if_true]
  exact ⟨ha, hb, by rw [ha, hb]⟩

/-- Witness for C9 at a concrete store: unregistered email on one side,
registered email with failing verification on the other. -/
theorem login_uniform_error_witness :
    (login "no@x.y" "p" (fun _ _ => false) dbW).fst = .error (.http 401 "Invalid credentials") ∧
    (login "e@x.y" "wrong" (fun _ _ => false) dbW).fst = .error (.http 401 "Invalid credentials") := by
  have h := login_uniform_error dbW dbW "no@x.y" "e@x.y" "p" "wrong" (fun _ _ => false) userW rfl rfl rfl
  exact ⟨h.1, h.2.1⟩

end MusicBack
